import Mathlib

/-!
Shallow embedding of `packages/stook-graphql/src/Client.ts` (class `Client`):
the koa-compose middleware pipeline, the operation executor (`query`), the
hook surfaces (`useQuery`, `useMutate`, `useSubscribe`) and the subscription
surface (`fromSubscription`).

Modelling conventions:
- JavaScript `any` values carried in `ctx.body`, variables, results and errors
  are drawn from one abstract type `α`; `undefined` is `Option.none`.
- The external HTTP transport (`this.graphqlClient.query`, excluded from the
  core by the spec) is an oracle `Transport α`: it returns `Except.ok` for a
  resolved call and `Except.error` for a thrown one.
- Execution is single-threaded; observable effects (transport calls, state
  updates, refetch registration, middleware entry/exit markers) are recorded
  in an ordered event list threaded through the pipeline state.
- Callback functions supplied by callers (observer callbacks, `onUpdate`) are
  identified by opaque `Nat` ids; an event records which id was invoked.
-/

namespace Stook

variable {α : Type}

/-- Header map (`headers: {...}`), an association list of name/value pairs. -/
def Headers : Type := List (String × String)

instance : DecidableEq Headers := by
  unfold Headers
  infer_instance

/-- GraphQL variables object, an association list from names to `any` values. -/
def Variables (α : Type) : Type := List (String × α)

instance [DecidableEq α] : DecidableEq (Variables α) := by
  unfold Variables
  infer_instance

/-- The external transport behaviour of `this.graphqlClient.query(input, variables,
{headers})`: `Except.ok` models a resolved promise, `Except.error` a thrown value. -/
def Transport (α : Type) : Type := String → Variables α → Headers → Except α α

/-- The `Ctx` record (`types.ts` shape as used by `Client.ts`): the mutable state
of one in-flight operation threaded through the middleware pipeline. -/
structure Ctx (α : Type) where
  body : Option α
  headers : Headers
  valid : Bool
deriving DecidableEq

/-- The `ctx` instance-field initializer of `Client`:
`{ body: undefined, headers: {}, valid: true }`. -/
def initialCtx : Ctx α :=
  { body := none, headers := [], valid := true }

/-- State snapshot published to a result-store entry or a `useState` cell:
`{loading, data?, error?}`. Absent and `undefined` fields are both `none`. -/
structure StateVal (α : Type) where
  loading : Bool
  data : Option α := none
  error : Option α := none
deriving DecidableEq

/-- Observable effects, in program order. -/
inductive Ev (α : Type) where
  /-- a marker middleware ran its pre-`next` code -/
  | enter : Nat → Ev α
  /-- a marker middleware ran its post-`next` code -/
  | leave : Nat → Ev α
  /-- `this.graphqlClient.query(input, variables, {headers})` was invoked -/
  | transportCall : String → Variables α → Headers → Ev α
  /-- `setState(st)` on the shared store / state cell -/
  | setState : StateVal α → Ev α
  /-- the caller-supplied `onUpdate` callback (identified by id) was invoked -/
  | onUpdateCall : Nat → StateVal α → Ev α
  /-- `fetcher.set(key, {refetch})` registered a refetch handle -/
  | fetcherSet : String → Ev α
deriving DecidableEq

/-- Pipeline execution state: the mutable `ctx` plus the event trace so far. -/
structure PipeState (α : Type) where
  ctx : Ctx α
  events : List (Ev α)

/-- A middleware `(ctx, next) => ...` under single-threaded semantics: it
receives the current pipeline state and the continuation running the rest of
the chain, and yields the state after its own pre- and post-`next` code. -/
def Middleware (α : Type) : Type :=
  PipeState α → (PipeState α → PipeState α) → PipeState α

/-- koa-compose for well-behaved middleware (each calls `next` at most once,
which compose itself enforces): `compose(mws)(ctx)` dispatches the head with
the composition of the tail as its continuation; an empty chain is done. -/
def runChain : List (Middleware α) → PipeState α → PipeState α
  | [], s => s
  | m :: rest, s => m s (runChain rest)

/-- A marker middleware used to observe pipeline ordering: it records `enter n`
before calling `next` and `leave n` after `next` completes. -/
def marker (n : Nat) : Middleware α :=
  fun s next =>
    let s1 := next { s with events := s.events ++ [Ev.enter n] }
    { s1 with events := s1.events ++ [Ev.leave n] }

/-- The `Options` argument of `query`/`useQuery`/`useMutate` (`types.ts` shape
as used by `Client.ts`); a `none` field models an absent property. `onUpdate`
is the id of the caller's callback. -/
structure Options (α : Type) where
  vars : Option (Variables α) := none
  headers : Option Headers := none
  key : Option String := none
  initialData : Option α := none
  onUpdate : Option Nat := none
  deps : Option (List Nat) := none

/-- `const { variables = {} } = options`. -/
def optVariables (o : Options α) : Variables α := o.vars.getD []

/-- `options.headers || {}`. -/
def optHeaders (o : Options α) : Headers := o.headers.getD []

/-- Object spread `{...a, ...b}`: a property present in `b` wins. -/
def mergeOptions (a b : Options α) : Options α :=
  { vars := b.vars.orElse fun _ => a.vars
    headers := b.headers.orElse fun _ => a.headers
    key := b.key.orElse fun _ => a.key
    initialData := b.initialData.orElse fun _ => a.initialData
    onUpdate := b.onUpdate.orElse fun _ => a.onUpdate
    deps := b.deps.orElse fun _ => a.deps }

/-- The `GraphqlOptions` constructor/config argument. -/
structure GraphqlOptions where
  endpoint : Option String := none
  headers : Option Headers := none
  subscriptionsEndpoint : Option String := none
deriving DecidableEq

/-- The default parameter `{ endpoint: '/graphql', headers: {} }`. -/
def defaultGraphqlOptions : GraphqlOptions :=
  { endpoint := some "/graphql", headers := some [] }

/-- `{...this.graphqlOptions, ...opt}`. -/
def mergeGraphqlOptions (a b : GraphqlOptions) : GraphqlOptions :=
  { endpoint := b.endpoint.orElse fun _ => a.endpoint
    headers := b.headers.orElse fun _ => a.headers
    subscriptionsEndpoint := b.subscriptionsEndpoint.orElse fun _ => a.subscriptionsEndpoint }

/-- JavaScript truthiness of an optional string (`undefined` and `''` are falsy). -/
def truthyStr : Option String → Bool
  | some s => !(s == "")
  | none => false

/-- The configuration captured by `new GraphQLClient({endpoint, headers})`;
its query behaviour is the external `Transport` oracle. -/
structure GraphQLClient where
  endpoint : Option String
  headers : Option Headers
deriving DecidableEq

/-- The configuration captured by
`new SubscriptionClient(subscriptionsEndpoint, { reconnect: true })`. -/
structure SubscriptionClient where
  uri : String
  reconnect : Bool
deriving DecidableEq

/-- The `Client` instance state. `graphqlClient`/`subscriptionClient` start as
`NULL_AS` (`none`) and are assigned by the constructor/`config`. -/
structure Client (α : Type) where
  graphqlOptions : GraphqlOptions
  middleware : List (Middleware α)
  graphqlClient : Option GraphQLClient
  subscriptionClient : Option SubscriptionClient
  ctx : Ctx α

/-- The `Client` constructor: stores the options, builds a `GraphQLClient` from
`endpoint`/`headers`, and builds a `SubscriptionClient` only when
`subscriptionsEndpoint` is truthy. -/
def Client.create (α : Type) (opt : GraphqlOptions) : Client α :=
  { graphqlOptions := opt
    middleware := []
    graphqlClient := some { endpoint := opt.endpoint, headers := opt.headers }
    subscriptionClient :=
      if truthyStr opt.subscriptionsEndpoint then
        some { uri := opt.subscriptionsEndpoint.getD "", reconnect := true }
      else none
    ctx := initialCtx }

/-- `config(opt)`: merges `opt` over the stored options, rebuilds the
`GraphQLClient` from `opt`'s own `endpoint`/`headers`, and rebuilds the
`SubscriptionClient` only when `opt.subscriptionsEndpoint` is truthy
(otherwise the previous instance is left in place). -/
def Client.config (c : Client α) (opt : GraphqlOptions) : Client α :=
  { c with
    graphqlOptions := mergeGraphqlOptions c.graphqlOptions opt
    graphqlClient := some { endpoint := opt.endpoint, headers := opt.headers }
    subscriptionClient :=
      if truthyStr opt.subscriptionsEndpoint then
        some { uri := opt.subscriptionsEndpoint.getD "", reconnect := true }
      else c.subscriptionClient }

/-- `applyMiddleware(fn)`: appends `fn` to the middleware list. -/
def Client.applyMiddleware (c : Client α) (fn : Middleware α) : Client α :=
  { c with middleware := c.middleware ++ [fn] }

/-- The terminal `action` built inside `query`: calls the transport once,
writes the result into `ctx.body` on success, or writes the thrown value into
`ctx.body` and sets `ctx.valid = false` on failure; it never calls `next`. -/
def queryAction (t : Transport α) (input : String) (vars : Variables α)
    (headers : Headers) : Middleware α :=
  fun s _next =>
    match t input vars headers with
    | Except.ok v =>
        { ctx := { s.ctx with body := some v }
          events := s.events ++ [Ev.transportCall input vars headers] }
    | Except.error e =>
        { ctx := { s.ctx with body := some e, valid := false }
          events := s.events ++ [Ev.transportCall input vars headers] }

/-- `query(input, options)`: runs `compose([...this.middleware, action])` on the
instance field `this.ctx`, then throws `this.ctx.body` when `this.ctx.valid` is
false and returns `this.ctx.body` otherwise. Yields the settled promise
(`Except.error` models rejection), the client with its mutated `ctx`, and the
event trace of the invocation. -/
def Client.query (c : Client α) (t : Transport α) (input : String)
    (options : Options α) :
    Except (Option α) (Option α) × Client α × List (Ev α) :=
  let action := queryAction t input (optVariables options) (optHeaders options)
  let s := runChain (c.middleware ++ [action]) { ctx := c.ctx, events := [] }
  let c1 := { c with ctx := s.ctx }
  if s.ctx.valid then (Except.ok s.ctx.body, c1, s.events)
  else (Except.error s.ctx.body, c1, s.events)

section QueryLemmas

/-- On an empty middleware list with a resolving transport, `query` writes the
result into `ctx.body`, leaves `valid` unchanged, and returns the body iff the
context was valid. -/
theorem query_nil_ok (c : Client α) (t : Transport α) (input : String)
    (o : Options α) (d : α) (hm : c.middleware = [])
    (hd : t input (optVariables o) (optHeaders o) = Except.ok d) :
    c.query t input o =
      ((if c.ctx.valid then Except.ok (some d) else Except.error (some d)),
        { c with ctx := { c.ctx with body := some d } },
        [Ev.transportCall input (optVariables o) (optHeaders o)]) := by
  unfold Client.query
  rw [hm]
  simp only [List.nil_append]
  unfold queryAction
  rw [hd]
  by_cases hv : c.ctx.valid = true <;> simp [runChain, hv]

/-- On an empty middleware list with a throwing transport, `query` writes the
thrown value into `ctx.body`, sets `valid := false`, and rejects with the body. -/
theorem query_nil_err (c : Client α) (t : Transport α) (input : String)
    (o : Options α) (e : α) (hm : c.middleware = [])
    (he : t input (optVariables o) (optHeaders o) = Except.error e) :
    c.query t input o =
      (Except.error (some e),
        { c with ctx := { c.ctx with body := some e, valid := false } },
        [Ev.transportCall input (optVariables o) (optHeaders o)]) := by
  unfold Client.query
  rw [hm]
  simp only [List.nil_append]
  unfold queryAction
  rw [he]
  simp [runChain]

/-- The event trace of a `query` invocation is the trace produced by the
composed chain, whether the call resolves or rejects. -/
theorem query_events (c : Client α) (t : Transport α) (input : String)
    (o : Options α) :
    (c.query t input o).2.2 =
      (runChain (c.middleware ++ [queryAction t input (optVariables o) (optHeaders o)])
        { ctx := c.ctx, events := [] }).events := by
  unfold Client.query
  by_cases hv : (runChain (c.middleware ++ [queryAction t input (optVariables o) (optHeaders o)])
      { ctx := c.ctx, events := [] }).ctx.valid = true <;> simp [hv]

/-- Folding `applyMiddleware` over a tag list appends the corresponding marker
stages, in order, to the middleware list and changes nothing else. -/
theorem foldl_applyMiddleware (tags : List Nat) : ∀ c : Client α,
    tags.foldl (fun acc n => Client.applyMiddleware acc (marker n)) c =
      { c with middleware := c.middleware ++ tags.map marker } := by
  induction tags with
  | nil => intro c; simp
  | cons n rest ih =>
      intro c
      simp only [List.foldl_cons, List.map_cons]
      rw [ih]
      simp [Client.applyMiddleware]

/-- Running a chain of marker stages followed by the terminal query action:
the context receives the transport outcome, and the trace records every marker
entry in list order, then the transport call, then every marker exit in
reverse list order. -/
theorem runChain_markers (t : Transport α) (input : String) (vs : Variables α)
    (hdrs : Headers) (l : List Nat) : ∀ s : PipeState α,
    runChain (l.map marker ++ [queryAction t input vs hdrs]) s =
      { ctx :=
          match t input vs hdrs with
          | Except.ok d => { s.ctx with body := some d }
          | Except.error e => { s.ctx with body := some e, valid := false }
        events := s.events ++ l.map Ev.enter ++ [Ev.transportCall input vs hdrs]
          ++ l.reverse.map Ev.leave } := by
  induction l with
  | nil =>
      intro s
      cases ht : t input vs hdrs <;> simp [runChain, queryAction, ht]
  | cons n rest ih =>
      intro s
      simp only [List.map_cons, List.cons_append, runChain, marker, List.append_eq]
      rw [ih]
      cases ht : t input vs hdrs <;> simp [ht]

end QueryLemmas

/-- Claim C1 (code defect): the context threaded through the middleware pipeline
is the client's single `ctx` instance field, not one allocated per invocation.
After a query whose transport throws `9`, the stored context keeps
`valid = false` and `body = 9`; the next query invocation threads exactly this
stored context — it does not begin with `valid = true` — so it rejects with the
second transport's successful result, observing the first invocation's
`body`/`valid` writes. -/
theorem c1_shared_context_bug :
    (Client.create Nat defaultGraphqlOptions).ctx
      = { body := none, headers := [], valid := true } ∧
    ((Client.create Nat defaultGraphqlOptions).query (fun _ _ _ => Except.error 9) "a"
        ({} : Options Nat)).2.1.ctx
      = { body := some 9, headers := [], valid := false } ∧
    (((Client.create Nat defaultGraphqlOptions).query (fun _ _ _ => Except.error 9) "a"
        ({} : Options Nat)).2.1.query (fun _ _ _ => Except.ok 4) "b" ({} : Options Nat)).1
      = Except.error (some 4) := by
  refine ⟨rfl, rfl, rfl⟩

/-- Claim C2: on a client with no registered middleware and a valid context, a
resolving transport's result is written into `ctx.body` and `query` returns
`ctx.body`; a throwing transport's exception is caught, not propagated: the
thrown value is written into `ctx.body`, `ctx.valid` is set to `false`, and
`query` rejects with that same value. -/
theorem c2_query_outcomes (c : Client α) (t : Transport α) (input : String)
    (o : Options α) (hm : c.middleware = []) (hv : c.ctx.valid = true) :
    (∀ d : α, t input (optVariables o) (optHeaders o) = Except.ok d →
      (c.query t input o).1 = Except.ok (some d) ∧
      (c.query t input o).2.1.ctx.body = some d ∧
      (c.query t input o).1 = Except.ok ((c.query t input o).2.1.ctx.body)) ∧
    (∀ e : α, t input (optVariables o) (optHeaders o) = Except.error e →
      (c.query t input o).1 = Except.error (some e) ∧
      (c.query t input o).2.1.ctx.body = some e ∧
      (c.query t input o).2.1.ctx.valid = false) := by
  constructor
  · intro d hd
    rw [query_nil_ok c t input o d hm hd]
    simp [hv]
  · intro e he
    rw [query_nil_err c t input o e hm he]
    simp

/-- Witness for C2 at a concrete client and transport. -/
theorem c2_witness :
    ((Client.create Nat defaultGraphqlOptions).middleware = [] ∧
      (Client.create Nat defaultGraphqlOptions).ctx.valid = true) ∧
    ((Client.create Nat defaultGraphqlOptions).query (fun _ _ _ => Except.ok 5) "q"
        ({} : Options Nat)).1 = Except.ok (some 5) := by
  refine ⟨⟨rfl, rfl⟩, ?_⟩
  exact ((c2_query_outcomes (Client.create Nat defaultGraphqlOptions)
    (fun _ _ _ => Except.ok 5) "q" ({} : Options Nat) rfl rfl).1 5 rfl).1

/-- Claim C3: registering marker stages via `applyMiddleware` in the order of
`tags` and then invoking `query` produces the pre-`next` entries in exactly
registration order, then the terminal transport call, then the post-`next`
exits in exactly the reverse of registration order. -/
theorem c3_pipeline_order (c : Client α) (t : Transport α) (input : String)
    (o : Options α) (tags : List Nat) (hm : c.middleware = []) :
    ((tags.foldl (fun acc n => Client.applyMiddleware acc (marker n)) c).query t input o).2.2 =
      tags.map Ev.enter
        ++ [Ev.transportCall input (optVariables o) (optHeaders o)]
        ++ tags.reverse.map Ev.leave := by
  rw [query_events, foldl_applyMiddleware, hm]
  simp only [List.nil_append]
  rw [runChain_markers]
  simp

/-- Witness for C3 with two marker stages. -/
theorem c3_witness :
    (Client.create Nat defaultGraphqlOptions).middleware = [] ∧
    ((([1, 2] : List Nat).foldl (fun acc n => Client.applyMiddleware acc (marker n))
        (Client.create Nat defaultGraphqlOptions)).query
        (fun _ _ _ => Except.ok 5) "q" ({} : Options Nat)).2.2 =
      [Ev.enter 1, Ev.enter 2, Ev.transportCall "q" [] [], Ev.leave 2, Ev.leave 1] := by
  refine ⟨rfl, ?_⟩
  have h := c3_pipeline_order (Client.create Nat defaultGraphqlOptions)
    (fun _ _ _ => Except.ok 5) "q" ({} : Options Nat) [1, 2] rfl
  simpa [optVariables, optHeaders] using h

/-- Boolean recogniser for transport-call events. -/
def Ev.isTransport : Ev α → Bool
  | Ev.transportCall _ _ _ => true
  | _ => false

/-- Claim C4: a query invocation on a client whose middleware are marker stages
issues exactly one transport call, whether the transport resolves or throws. -/
theorem c4_single_transport_call (c : Client α) (t : Transport α) (input : String)
    (o : Options α) (tags : List Nat) (hm : c.middleware = tags.map marker) :
    ((c.query t input o).2.2.countP (fun ev => Ev.isTransport ev)) = 1 := by
  rw [query_events, hm, runChain_markers]
  simp [List.countP_append, List.countP_map, Function.comp_def, Ev.isTransport,
    List.countP_eq_zero]

/-- Witness for C4 with one marker stage and a throwing transport. -/
theorem c4_witness :
    ((Client.applyMiddleware (Client.create Nat defaultGraphqlOptions)
        (marker 3)).middleware = [marker 3]) ∧
    (((Client.applyMiddleware (Client.create Nat defaultGraphqlOptions)
        (marker 3)).query (fun _ _ _ => Except.error 7) "q"
        ({} : Options Nat)).2.2.countP (fun ev => Ev.isTransport ev)) = 1 := by
  refine ⟨rfl, ?_⟩
  exact c4_single_transport_call (Client.applyMiddleware
    (Client.create Nat defaultGraphqlOptions) (marker 3))
    (fun _ _ _ => Except.error 7) "q" ({} : Options Nat) [3] rfl

/-- Claim C9: on a middleware-free client, a rejected query leaves the shared
context's `valid` flag at `false` and nothing resets it, so the next query
invocation also rejects even when its transport succeeds — and the rejection
value is then the transport's successful result — and the context stays
invalid after it. -/
theorem c9_poisoned_client (c : Client α) (t1 t2 : Transport α)
    (i1 i2 : String) (o1 o2 : Options α) (e d : α)
    (hm : c.middleware = []) (_hv : c.ctx.valid = true)
    (h1 : t1 i1 (optVariables o1) (optHeaders o1) = Except.error e)
    (h2 : t2 i2 (optVariables o2) (optHeaders o2) = Except.ok d) :
    (c.query t1 i1 o1).1 = Except.error (some e) ∧
    ((c.query t1 i1 o1).2.1.query t2 i2 o2).1 = Except.error (some d) ∧
    ((c.query t1 i1 o1).2.1.query t2 i2 o2).2.1.ctx.valid = false := by
  have h1q := query_nil_err c t1 i1 o1 e hm h1
  have h2q := query_nil_ok ({ c with ctx := { c.ctx with body := some e, valid := false } })
    t2 i2 o2 d hm h2
  rw [h1q]
  simp only []
  rw [h2q]
  simp

/-- Witness for C9 at a concrete poisoned client. -/
theorem c9_witness :
    ((Client.create Nat defaultGraphqlOptions).middleware = [] ∧
      (Client.create Nat defaultGraphqlOptions).ctx.valid = true) ∧
    (((Client.create Nat defaultGraphqlOptions).query (fun _ _ _ => Except.error 7) "a"
        ({} : Options Nat)).2.1.query (fun _ _ _ => Except.ok 5) "b" ({} : Options Nat)).1
      = Except.error (some 5) := by
  refine ⟨⟨rfl, rfl⟩, ?_⟩
  exact (c9_poisoned_client (Client.create Nat defaultGraphqlOptions)
    (fun _ _ _ => Except.error 7) (fun _ _ _ => Except.ok 5) "a" "b"
    ({} : Options Nat) ({} : Options Nat) 7 5 rfl rfl rfl rfl).2.1

/-- Claim C8 is false as stated: configuring a client that was constructed with
a subscriptions endpoint, using options that carry no `subscriptionsEndpoint`,
leaves the previous `SubscriptionClient` instance in use, and the previous
`subscriptionsEndpoint` option value survives in the merged `graphqlOptions`. -/
theorem c8_counterexample :
    ((Client.create Nat { endpoint := some "/a", headers := some [], subscriptionsEndpoint := some "ws://a" }).config
        { endpoint := some "/b" }).subscriptionClient
      = some { uri := "ws://a", reconnect := true } ∧
    ((Client.create Nat { endpoint := some "/a", headers := some [], subscriptionsEndpoint := some "ws://a" }).config
        { endpoint := some "/b" }).graphqlOptions.subscriptionsEndpoint
      = some "ws://a" := by
  exact ⟨rfl, rfl⟩

/-- Claim C8 amended: every `config` call rebuilds the HTTP GraphQL client from
that call's own `endpoint`/`headers`, exactly as a fresh construction from those
arguments would; the subscription client is likewise rebuilt only when the call
supplies a truthy `subscriptionsEndpoint`, and otherwise the previous
subscription client instance remains in use. -/
theorem c8_config_amended (c : Client α) (opt : GraphqlOptions) :
    (c.config opt).graphqlClient = (Client.create α opt).graphqlClient ∧
    (truthyStr opt.subscriptionsEndpoint = true →
      (c.config opt).subscriptionClient = (Client.create α opt).subscriptionClient) ∧
    (truthyStr opt.subscriptionsEndpoint = false →
      (c.config opt).subscriptionClient = c.subscriptionClient) := by
  refine ⟨rfl, ?_, ?_⟩ <;> intro h <;> simp [Client.config, Client.create, h]

/-- Witness for the amended C8 at a concrete reconfiguration. -/
theorem c8_config_witness :
    truthyStr (some "ws://b") = true ∧
    ((Client.create Nat defaultGraphqlOptions).config
        { endpoint := some "/b", subscriptionsEndpoint := some "ws://b" }).subscriptionClient
      = (Client.create Nat
          { endpoint := some "/b", subscriptionsEndpoint := some "ws://b" }).subscriptionClient := by
  refine ⟨rfl, ?_⟩
  exact (c8_config_amended (Client.create Nat defaultGraphqlOptions)
    { endpoint := some "/b", subscriptionsEndpoint := some "ws://b" }).2.1 rfl

/-- `options.key || input`: the operation key defaults to the operation text;
an empty-string key is falsy and also falls back. -/
def fetcherKey (key : Option String) (input : String) : String :=
  match key with
  | some k => if k = "" then input else k
  | none => input

/-- Modelled from the spec: stook's `useStore(key, initialState)` read side —
the result store's `getOrInit` of spec section 4.3 (stook itself is not under
`src/`). Returns the state stored for the key, or the supplied initial state
when the key is absent. -/
def getOrInit (store : List (String × StateVal α)) (k : String)
    (init : StateVal α) : StateVal α :=
  match store.lookup k with
  | some s => s
  | none => init

/-- The `update(nextState)` helper of the hooks: `setState(nextState)` followed
by `onUpdate && onUpdate(nextState)`. -/
def updateEvents (onUpdate : Option Nat) (st : StateVal α) : List (Ev α) :=
  Ev.setState st :: (match onUpdate with
    | some i => [Ev.onUpdateCall i st]
    | none => [])

/-- The initial state of `useMutate`: `{ loading: false, data: initialData }`. -/
def mutateInitialState (options : Options α) : StateVal α :=
  { loading := false, data := options.initialData }

/-- The state a `useMutate` call reads: `useStore(fetcherName, initialState)`
with `fetcherName = options.key || input`. -/
def useMutateRender (input : String) (options : Options α)
    (store : List (String × StateVal α)) : StateVal α :=
  getOrInit store (fetcherKey options.key input) (mutateInitialState options)

/-- The trigger returned by `useMutate`: `mutate(variables, opt)` synchronously
publishes `{loading: true}`, then runs `doFetch({...opt, variables})`, which
queries with `{...options, ...opt, variables}` and publishes
`{loading:false, data}` on resolution or `{loading:false, error}` on rejection.
The first component is the value `mutate` returns to its caller: the source has
no return statement, so it is always `none` (`undefined`). -/
def Client.mutateTrigger (c : Client α) (t : Transport α) (input : String)
    (options : Options α) (vs : Variables α) (opt : Options α) :
    Option α × List (Ev α) × Client α :=
  let e1 := updateEvents options.onUpdate { loading := true }
  let fetchOpt := mergeOptions options { opt with vars := some vs }
  let r := c.query t input fetchOpt
  let settle :=
    match r.1 with
    | Except.ok body => updateEvents options.onUpdate { loading := false, data := body }
    | Except.error err => updateEvents options.onUpdate { loading := false, error := err }
  (none, e1 ++ r.2.2 ++ settle, r.2.1)

/-- Claim C5: `useMutate` starts from `{loading:false, data:initialData}`; the
trigger publishes `{loading:true}` synchronously, before the transport call
runs; the query receives the base options merged with the call-time variables
(the call-time variables win); the state then settles to `{loading:false, data}`
on resolution or `{loading:false, error}` on rejection; and the trigger returns
no value to its caller. -/
theorem c5_useMutate (c : Client α) (t : Transport α) (input : String)
    (options : Options α) (vs : Variables α) (opt : Options α)
    (store : List (String × StateVal α))
    (hm : c.middleware = []) (hv : c.ctx.valid = true)
    (hs : store.lookup (fetcherKey options.key input) = none) :
    useMutateRender input options store = { loading := false, data := options.initialData } ∧
    (c.mutateTrigger t input options vs opt).1 = none ∧
    optVariables (mergeOptions options { opt with vars := some vs }) = vs ∧
    (∀ d : α, t input vs (optHeaders (mergeOptions options { opt with vars := some vs }))
        = Except.ok d →
      (c.mutateTrigger t input options vs opt).2.1 =
        updateEvents options.onUpdate { loading := true }
          ++ [Ev.transportCall input vs
                (optHeaders (mergeOptions options { opt with vars := some vs }))]
          ++ updateEvents options.onUpdate { loading := false, data := some d }) ∧
    (∀ e : α, t input vs (optHeaders (mergeOptions options { opt with vars := some vs }))
        = Except.error e →
      (c.mutateTrigger t input options vs opt).2.1 =
        updateEvents options.onUpdate { loading := true }
          ++ [Ev.transportCall input vs
                (optHeaders (mergeOptions options { opt with vars := some vs }))]
          ++ updateEvents options.onUpdate { loading := false, error := some e }) := by
  have hvars : optVariables (mergeOptions options { opt with vars := some vs }) = vs := by
    simp [optVariables, mergeOptions, Option.orElse]
  refine ⟨?_, ?_, hvars, ?_, ?_⟩
  · simp [useMutateRender, getOrInit, hs, mutateInitialState]
  · have h := c.query t input (mergeOptions options { opt with vars := some vs })
    simp [Client.mutateTrigger]
  · intro d hd
    have hq := query_nil_ok c t input (mergeOptions options { opt with vars := some vs }) d hm
      (by rw [hvars]; exact hd)
    simp [Client.mutateTrigger, hq, hv, hvars]
  · intro e he
    have hq := query_nil_err c t input (mergeOptions options { opt with vars := some vs }) e hm
      (by rw [hvars]; exact he)
    simp [Client.mutateTrigger, hq, hvars]

/-- Witness for C5 at a concrete trigger invocation. -/
theorem c5_witness :
    ((Client.create Nat defaultGraphqlOptions).middleware = [] ∧
      (Client.create Nat defaultGraphqlOptions).ctx.valid = true ∧
      ([] : List (String × StateVal Nat)).lookup (fetcherKey none "m") = none) ∧
    ((Client.create Nat defaultGraphqlOptions).mutateTrigger (fun _ _ _ => Except.ok 8)
        "m" ({} : Options Nat) [("x", 1)] ({} : Options Nat)).2.1 =
      [Ev.setState { loading := true },
        Ev.transportCall "m" [("x", 1)] [],
        Ev.setState { loading := false, data := some 8 }] := by
  refine ⟨⟨rfl, rfl, rfl⟩, ?_⟩
  have h := (c5_useMutate (Client.create Nat defaultGraphqlOptions)
    (fun _ _ _ => Except.ok 8) "m" ({} : Options Nat) [("x", 1)] ({} : Options Nat)
    [] rfl rfl rfl).2.2.2.1 8 rfl
  simpa [updateEvents, optHeaders, mergeOptions, Option.orElse] using h

/-- The initial state of `useQuery`: `{ loading: true, data: initialData }`. -/
def queryInitialState (options : Options α) : StateVal α :=
  { loading := true, data := options.initialData }

/-- One `useQuery` call on first mount: the hook reads
`useStore(fetcherName, initialState)`; its mount effect invokes
`doFetch(options)` — which runs synchronously as far as the transport call and
suspends — then stores the refetch handle via `fetcher.set(fetcherName, ...)`
in the same tick, after which the suspended fetch settles the state with
`{loading:false, data}` or `{loading:false, error}`. The recorded event
interleaving is the single-threaded order for a client with no middleware
(post-`next` middleware code would otherwise also run after the suspension). -/
def Client.useQueryMount (c : Client α) (t : Transport α) (input : String)
    (options : Options α) (store : List (String × StateVal α)) :
    StateVal α × List (Ev α) × Client α :=
  let fetcherName := fetcherKey options.key input
  let result := getOrInit store fetcherName (queryInitialState options)
  let r := c.query t input options
  let settle :=
    match r.1 with
    | Except.ok body => updateEvents options.onUpdate { loading := false, data := body }
    | Except.error err => updateEvents options.onUpdate { loading := false, error := err }
  (result, r.2.2 ++ [Ev.fetcherSet fetcherName] ++ settle, r.2.1)

/-- Claim C6 is false as stated on the registration order: at a concrete
first mount the refetch handle is registered (index 1 of the trace) before the
state transition to `{loading:false, data}` (index 2), not afterwards. -/
theorem c6_counterexample :
    ((Client.create Nat defaultGraphqlOptions).useQueryMount (fun _ _ _ => Except.ok 5)
        "q" ({} : Options Nat) []).2.1 =
      [Ev.transportCall "q" [] [], Ev.fetcherSet "q",
        Ev.setState { loading := false, data := some 5 }] ∧
    List.indexOf (Ev.fetcherSet "q")
        ((Client.create Nat defaultGraphqlOptions).useQueryMount (fun _ _ _ => Except.ok 5)
          "q" ({} : Options Nat) []).2.1 <
      List.indexOf (Ev.setState { loading := false, data := some 5 })
        ((Client.create Nat defaultGraphqlOptions).useQueryMount (fun _ _ _ => Except.ok 5)
          "q" ({} : Options Nat) []).2.1 := by
  exact ⟨rfl, by decide⟩

/-- Claim C6 amended: on first mount with a fresh key, `useQuery` reads
`{loading:true, data:initialData}` keyed under `options.key || input`,
immediately runs the operation, settles to `{loading:false, data}` on success
and `{loading:false, error}` on failure, and registers its refetch handle under
the same key during the mount effect, before the execution settles (not
afterwards). -/
theorem c6_useQuery_amended (c : Client α) (t : Transport α) (input : String)
    (options : Options α) (store : List (String × StateVal α))
    (hm : c.middleware = []) (hv : c.ctx.valid = true)
    (hs : store.lookup (fetcherKey options.key input) = none) :
    (c.useQueryMount t input options store).1
      = { loading := true, data := options.initialData } ∧
    (∀ d : α, t input (optVariables options) (optHeaders options) = Except.ok d →
      (c.useQueryMount t input options store).2.1 =
        [Ev.transportCall input (optVariables options) (optHeaders options),
          Ev.fetcherSet (fetcherKey options.key input)]
          ++ updateEvents options.onUpdate { loading := false, data := some d }) ∧
    (∀ e : α, t input (optVariables options) (optHeaders options) = Except.error e →
      (c.useQueryMount t input options store).2.1 =
        [Ev.transportCall input (optVariables options) (optHeaders options),
          Ev.fetcherSet (fetcherKey options.key input)]
          ++ updateEvents options.onUpdate { loading := false, error := some e }) := by
  refine ⟨?_, ?_, ?_⟩
  · simp [Client.useQueryMount, getOrInit, hs, queryInitialState]
  · intro d hd
    have hq := query_nil_ok c t input options d hm hd
    simp [Client.useQueryMount, hq, hv]
  · intro e he
    have hq := query_nil_err c t input options e hm he
    simp [Client.useQueryMount, hq]

/-- Witness for the amended C6 at a concrete failing mount. -/
theorem c6_witness :
    ((Client.create Nat defaultGraphqlOptions).middleware = [] ∧
      (Client.create Nat defaultGraphqlOptions).ctx.valid = true ∧
      ([] : List (String × StateVal Nat)).lookup (fetcherKey none "q") = none) ∧
    ((Client.create Nat defaultGraphqlOptions).useQueryMount (fun _ _ _ => Except.error 3)
        "q" ({} : Options Nat) []).2.1 =
      [Ev.transportCall "q" [] [], Ev.fetcherSet "q",
        Ev.setState { loading := false, error := some 3 }] := by
  refine ⟨⟨rfl, rfl, rfl⟩, ?_⟩
  have h := (c6_useQuery_amended (Client.create Nat defaultGraphqlOptions)
    (fun _ _ _ => Except.error 3) "q" ({} : Options Nat) [] rfl rfl rfl).2.2 3 rfl
  simpa [updateEvents, optVariables, optHeaders, fetcherKey] using h

/-- Failure modes of the subscription entry points. -/
inductive SubError where
  /-- the explicit thrown configuration error (the source's
  `require subscriptionsEndpoint config` message) -/
  | configError : SubError
  /-- dereferencing the null `subscriptionClient` — a TypeError, not the
  configuration error -/
  | nullDeref : SubError
deriving DecidableEq

/-- The `SubscriptionOption` argument of `useSubscribe` as used by `Client.ts`
(`variables`, `operationName`, `onUpdate`; the one-shot `initialQuery` path is
outside the claims and not modelled). -/
structure SubscriptionOption (α : Type) where
  vars : Option (Variables α) := none
  operationName : Option String := none
  onUpdate : Option Nat := none

/-- The `FromSubscriptionOption` argument of `fromSubscription`. -/
structure FromSubscriptionOption (α : Type) where
  vars : Option (Variables α) := none

/-- The request descriptor submitted to `subscriptionClient.request` by
`useSubscribe`. -/
structure SubRequest (α : Type) where
  query : String
  vars : Variables α
  operationName : String
deriving DecidableEq

/-- The synchronous body of a `useSubscribe` call (first render): it only
creates local state `{loading: true}` via `useState` and returns it; there is
no check of `subscriptionClient` and no channel interaction before the mount
effect runs. -/
def Client.useSubscribeRender (_c : Client α) (_input : String)
    (_options : SubscriptionOption α) : StateVal α :=
  { loading := true }

/-- `initSubscribe`, run by the mount effect of `useSubscribe`: it dereferences
`this.subscriptionClient` unconditionally — on a client with no configured
subscriptions endpoint this is a null dereference (`nullDeref`), not the
configuration error — and otherwise submits the request descriptor. -/
def Client.initSubscribe (c : Client α) (input : String)
    (options : SubscriptionOption α) : Except SubError (SubRequest α) :=
  match c.subscriptionClient with
  | none => Except.error SubError.nullDeref
  | some _ =>
      Except.ok { query := input, vars := options.vars.getD [],
                  operationName := options.operationName.getD "" }

/-- A caller-supplied observer; each callback is identified by an opaque id,
`none` meaning the callback is absent (`undefined`). -/
structure Observer (α : Type) where
  next : Option Nat := none
  error : Option Nat := none
  complete : Option Nat := none
deriving DecidableEq

/-- The observer object `ob` handed to the channel by `fromSubscription`'s
`subscribe`: starting from an empty object, `next` is set (to a wrapper that
forwards every payload to the caller's `next`) when the caller defined `next`;
`error` is copied when the caller defined `error`; and `complete` is copied
when the caller defined `error` (the source tests `observer.error` on both of
the last two lines, not `observer.complete`). -/
def fromSubscriptionOb (observer : Observer α) : Observer α :=
  let ob : Observer α := {}
  let ob := match observer.next with
    | some i => { ob with next := some i }
    | none => ob
  let ob := if observer.error.isSome then { ob with error := observer.error } else ob
  let ob := if observer.error.isSome then { ob with complete := observer.complete } else ob
  ob

/-- The data captured by the surface object `fromSubscription` returns. -/
structure SubSurface (α : Type) where
  input : String
  vars : Variables α
deriving DecidableEq

/-- `fromSubscription(input, options)`: throws the configuration error
synchronously when no `SubscriptionClient` was configured, before any channel
interaction; otherwise returns the subscribe surface. -/
def Client.fromSubscription (c : Client α) (input : String)
    (options : FromSubscriptionOption α) : Except SubError (SubSurface α) :=
  if c.subscriptionClient.isNone then Except.error SubError.configError
  else Except.ok { input := input, vars := options.vars.getD [] }

/-- The channel subscription issued by `subscribe(observer)` on the surface
returned by `fromSubscription`: the `{query, variables}` descriptor plus the
rebuilt observer attached to it. -/
structure SubscribeCall (α : Type) where
  query : String
  vars : Variables α
  observer : Observer α
deriving DecidableEq

/-- `subscribe(observer)` on the `fromSubscription` surface. -/
def SubSurface.subscribeOn (s : SubSurface α) (observer : Observer α) :
    SubscribeCall α :=
  { query := s.input, vars := s.vars, observer := fromSubscriptionOb observer }

/-- An event delivered by the channel to an attached observer. -/
inductive ChanEvent (α : Type) where
  | next : α → ChanEvent α
  | failure : α → ChanEvent α
  | complete : ChanEvent α
deriving DecidableEq

/-- One observer-callback invocation, by callback id. -/
inductive CbCall (α : Type) where
  | nextCall : Nat → α → CbCall α
  | errorCall : Nat → α → CbCall α
  | completeCall : Nat → CbCall α
deriving DecidableEq

/-- Channel delivery of one event: it invokes the matching callback when the
observer defines it and does nothing otherwise. -/
def deliver (ob : Observer α) : ChanEvent α → List (CbCall α)
  | ChanEvent.next d =>
      match ob.next with
      | some i => [CbCall.nextCall i d]
      | none => []
  | ChanEvent.failure e =>
      match ob.error with
      | some i => [CbCall.errorCall i e]
      | none => []
  | ChanEvent.complete =>
      match ob.complete with
      | some i => [CbCall.completeCall i]
      | none => []

/-- Sequential delivery of a whole event sequence. -/
def deliverAll (ob : Observer α) : List (ChanEvent α) → List (CbCall α)
  | [] => []
  | e :: rest => deliver ob e ++ deliverAll ob rest

/-- An observer without a `complete` callback never has `complete` invoked,
whatever the channel delivers. -/
theorem deliverAll_no_complete (ob : Observer α) (hc : ob.complete = none)
    (es : List (ChanEvent α)) (i : Nat) :
    CbCall.completeCall i ∉ deliverAll ob es := by
  induction es with
  | nil => simp [deliverAll]
  | cons e rest ih =>
      simp only [deliverAll, List.mem_append]
      rintro (hmem | hmem)
      · cases e with
        | next d =>
            cases hn : ob.next <;> simp [deliver, hn] at hmem
        | failure e =>
            cases hn : ob.error <;> simp [deliver, hn] at hmem
        | complete =>
            simp [deliver, hc] at hmem
      · exact ih hmem

/-- Claim C7 is false as stated for `useSubscribe`: on a client with no
configured subscriptions endpoint, the `useSubscribe` call itself does not fail
— it returns the initial loading state — and the failure only happens inside
the mount effect's `initSubscribe`, as a null dereference of
`subscriptionClient`, not as the configuration error. -/
theorem c7_counterexample :
    (Client.create Nat { endpoint := some "/a" }).subscriptionClient = none ∧
    (Client.create Nat { endpoint := some "/a" }).useSubscribeRender "s" {}
      = { loading := true } ∧
    (Client.create Nat { endpoint := some "/a" }).initSubscribe "s" {}
      = Except.error SubError.nullDeref ∧
    (Client.create Nat { endpoint := some "/a" }).initSubscribe "s" {}
      ≠ Except.error SubError.configError := by
  refine ⟨rfl, rfl, rfl, by simp [Client.initSubscribe, Client.create, truthyStr]⟩

/-- Claim C7 amended: `fromSubscription` on a client with no configured
subscriptions endpoint fails synchronously with the configuration error before
any channel interaction; `useSubscribe` performs no such synchronous check —
its render returns the initial state, and its mount effect's subscription
attempt fails as a null dereference of the subscription client instead. -/
theorem c7_fromSubscription_amended (c : Client α) (input : String)
    (oFrom : FromSubscriptionOption α) (oSub : SubscriptionOption α)
    (h : c.subscriptionClient = none) :
    c.fromSubscription input oFrom = Except.error SubError.configError ∧
    c.useSubscribeRender input oSub = { loading := true } ∧
    c.initSubscribe input oSub = Except.error SubError.nullDeref := by
  refine ⟨?_, rfl, ?_⟩ <;> simp [Client.fromSubscription, Client.initSubscribe, h]

/-- Witness for the amended C7 at a concrete unconfigured client. -/
theorem c7_witness :
    (Client.create Nat defaultGraphqlOptions).subscriptionClient = none ∧
    (Client.create Nat defaultGraphqlOptions).fromSubscription "s" {}
      = Except.error SubError.configError := by
  refine ⟨rfl, ?_⟩
  exact (c7_fromSubscription_amended (Client.create Nat defaultGraphqlOptions)
    "s" {} {} rfl).1

/-- Claim C10: `fromSubscription`'s `subscribe` forwards the caller's
`complete` callback to the channel exactly when the caller's observer also
defines an `error` callback; when the observer supplies `complete` but not
`error`, the forwarded observer carries no `complete`, so no channel event
sequence ever invokes the caller's `complete` callback. -/
theorem c10_complete_forwarding (observer : Observer α) :
    (fromSubscriptionOb observer).complete
      = (if observer.error.isSome then observer.complete else none) ∧
    (observer.error = none →
      ∀ (es : List (ChanEvent α)) (i : Nat),
        CbCall.completeCall i ∉ deliverAll (fromSubscriptionOb observer) es) := by
  have hcomp : (fromSubscriptionOb observer).complete
      = (if observer.error.isSome then observer.complete else none) := by
    unfold fromSubscriptionOb
    cases hn : observer.next <;> cases he : observer.error <;> simp [hn, he]
  refine ⟨hcomp, ?_⟩
  intro he es i
  apply deliverAll_no_complete
  rw [hcomp, he]
  simp

/-- Witness for C10: an observer with `complete` but no `error`. -/
theorem c10_witness :
    ({ next := some 1, complete := some 2 } : Observer Nat).error = none ∧
    CbCall.completeCall 2 ∉
      deliverAll (fromSubscriptionOb ({ next := some 1, complete := some 2 } : Observer Nat))
        [ChanEvent.next 0, ChanEvent.complete] := by
  refine ⟨rfl, ?_⟩
  exact (c10_complete_forwarding ({ next := some 1, complete := some 2 } : Observer Nat)).2
    rfl [ChanEvent.next 0, ChanEvent.complete] 2

end Stook
